import Mathlib

/-!
Verification development for the InstrumentKit instrument-driver repository
(Keithley 775A counter/timer, Wavetek 39A function generator, Newport
ESP-301 motor controller).  The Python sources are shallowly embedded:
pure string encoding/decoding becomes Lean functions, Python exceptions
become an explicit `Except` error monad, stateful controller objects become
explicit state passing, and float magnitudes are modelled as rationals
(all magnitudes appearing in the verified scenarios are exactly
representable both as binary floats and as rationals).
-/

set_option maxRecDepth 4000

/-- Python exceptions that the embedded code can raise.  Assertion failures
keep the program point (the source text of the failed assertion) so that
distinct `assert` statements remain distinguishable. -/
inductive PyExc where
  | assertionError (site : String)
  | indexError
  | valueError
  | typeError (msg : String)
  | runtimeError (msg : String)
  | nameError (nm : String)
  | attributeError (msg : String)
  | ioError (msg : String)
  | newportError (errcode : Option Int) (axis : Option Int) (msg : String)
deriving DecidableEq, Repr

/-- Decidable equality of embedded computation results, used to settle
concrete scenarios by evaluation. -/
instance {ε α : Type} [DecidableEq ε] [DecidableEq α] : DecidableEq (Except ε α) :=
  fun x y =>
    match x, y with
    | .ok a, .ok b =>
        if h : a = b then .isTrue (by rw [h]) else .isFalse (by simp [h])
    | .error e, .error f =>
        if h : e = f then .isTrue (by rw [h]) else .isFalse (by simp [h])
    | .ok _, .error _ => .isFalse (by simp)
    | .error _, .ok _ => .isFalse (by simp)

/-- Errors that can arise while decoding the fixed-offset fields of a
Keithley status word: `idx` models Python `IndexError` (string index out of
range), `val` models `ValueError` (a character that is not a digit, or an
integer outside an `IntEnum`'s set of values).  The field decoders can raise
nothing else; in particular they can never raise an assertion failure. -/
inductive FieldErr where
  | idx
  | val
deriving DecidableEq, Repr

/-- Inject a field-decoding error into the Python exception type. -/
def FieldErr.toPyExc : FieldErr → PyExc
  | .idx => .indexError
  | .val => .valueError

/-- Lift a field-decoding computation into the full exception monad. -/
def liftField {α : Type} : Except FieldErr α → Except PyExc α
  | .ok a => .ok a
  | .error e => .error e.toPyExc

/-- `s[i]` on a Python string: the character at index `i`, raising
`IndexError` when the index is out of range. -/
def pyCharAt (cs : List Char) (i : Nat) : Except FieldErr Char :=
  match cs.get? i with
  | some c => .ok c
  | none => .error .idx

/-- `int(c)` on a one-character Python string: its digit value, raising
`ValueError` when the character is not a decimal digit. -/
def pyDigit (c : Char) : Except FieldErr Nat :=
  if c.isDigit then .ok (c.toNat - 48) else .error .val

/-- Numeric value of a list of decimal digit characters. -/
def digitsVal (l : List Char) : Nat :=
  l.foldl (fun a c => a * 10 + (c.toNat - 48)) 0

/-- `int(s)` on a Python string holding an optionally signed decimal
integer; raises `ValueError` on anything else. -/
def pyIntString (s : String) : Except PyExc Int :=
  let cs := s.toList
  let sign : Bool := cs.head? = some '-'
  let ds := if sign then cs.drop 1 else cs
  if ds ≠ [] ∧ ds.all Char.isDigit then
    .ok (if sign then -(digitsVal ds : Int) else (digitsVal ds : Int))
  else .error .valueError

/-- `IntEnum(n)`: membership check against the enum's set of values,
raising `ValueError` for an integer that is not one of them. -/
def enumOfNat (valid : List Nat) (n : Nat) : Except FieldErr Nat :=
  if n ∈ valid then .ok n else .error .val

namespace Keithley775A

/-- The values of `Keithley775A.Mode` (keithley775a.py lines 60-71). -/
def modeValues : List Nat := [0, 1, 2, 3, 4, 5, 6, 7]

/-- The values of `Keithley775A.Coupling` (lines 73-78). -/
def couplingValues : List Nat := [0, 1]

/-- The values of `Keithley775A.Attenuator` (lines 80-85). -/
def attenuatorValues : List Nat := [0, 1]

/-- The values of `Keithley775A.Slope` (lines 87-92). -/
def slopeValues : List Nat := [0, 1]

/-- The values of `Keithley775A.Rate` (lines 94-101). -/
def rateValues : List Nat := [0, 1, 2, 3]

/-- The values of `Keithley775A.Terminator` (lines 115-123). -/
def terminatorValues : List Nat := [0, 1, 2, 3, 4]

/-- The values of `Keithley775A.DisplayMode` (lines 125-134). -/
def displayModeValues : List Nat := [0, 1, 2, 3, 4, 5]

/-- The values of `Keithley775A.DataFormat` (lines 136-143). -/
def dataFormatValues : List Nat := [0, 1, 2, 3]

/-- The values of `Keithley775A.Totalize` (lines 145-150). -/
def totalizeValues : List Nat := [0, 1]

/-- The decoded operating-mode status word: the dict built by
`Keithley775A.parse_operating_mode` (lines 741-759).  Enum-typed fields are
represented by the enum member's integer value, validated during decoding
exactly where the source constructs the `IntEnum`. -/
structure OperatingMode where
  mode : Nat
  coupling_A : Nat
  attenuator_A : Nat
  filter_A : Bool
  slope_A : Nat
  coupling_B : Nat
  attenuator_B : Nat
  filter_B : Bool
  slope_B : Nat
  delay : Bool
  display_mode : Nat
  data_format : Nat
  displayed_digits : Nat
  EOI : Bool
  SRQ_mask : Int
  rate : Nat
  terminator : Nat
  totalize : Nat
deriving DecidableEq, Repr

/-- Field decoding of the operating-mode status word (the dict literal of
`parse_operating_mode`, lines 741-759), evaluated after the `'775'`
assertion has passed.  Fields are decoded in the source's order. -/
def decodeOperatingFields (cs : List Char) : Except FieldErr OperatingMode := do
  let mode ← enumOfNat modeValues (← pyDigit (← pyCharAt cs 3))
  let coupling_A ← enumOfNat couplingValues (← pyDigit (← pyCharAt cs 4))
  let attenuator_A ← enumOfNat attenuatorValues (← pyDigit (← pyCharAt cs 5))
  let filter_A := (← pyCharAt cs 6) = '1'
  let slope_A ← enumOfNat slopeValues (← pyDigit (← pyCharAt cs 7))
  let coupling_B ← enumOfNat couplingValues (← pyDigit (← pyCharAt cs 8))
  let attenuator_B ← enumOfNat attenuatorValues (← pyDigit (← pyCharAt cs 9))
  let filter_B := (← pyCharAt cs 10) = '1'
  let slope_B ← enumOfNat slopeValues (← pyDigit (← pyCharAt cs 11))
  let delay := (← pyCharAt cs 12) = '1'
  let display_mode ← enumOfNat displayModeValues (← pyDigit (← pyCharAt cs 13))
  let data_format ← enumOfNat dataFormatValues (← pyDigit (← pyCharAt cs 14))
  let displayed_digits ← pyDigit (← pyCharAt cs 15)
  let EOI := (← pyCharAt cs 16) = '1'
  -- int(s[17:][:2]): a slice never raises IndexError, but int("") or a
  -- non-digit raises ValueError
  let srqChars := (cs.drop 17).take 2
  let SRQ_mask ←
    if srqChars ≠ [] ∧ srqChars.all Char.isDigit then
      Except.ok (digitsVal srqChars : Int)
    else Except.error FieldErr.val
  let rate ← enumOfNat rateValues (← pyDigit (← pyCharAt cs 19))
  let terminator ← enumOfNat terminatorValues (← pyDigit (← pyCharAt cs 20))
  let totalize ← enumOfNat totalizeValues (← pyDigit (← pyCharAt cs 21))
  .ok { mode, coupling_A, attenuator_A, filter_A, slope_A,
        coupling_B, attenuator_B, filter_B, slope_B, delay,
        display_mode, data_format, displayed_digits, EOI,
        SRQ_mask, rate, terminator, totalize }

/-- `Keithley775A.parse_operating_mode` (lines 733-760) applied to the
status string `s` returned by the device: `assert(s[0:3] == '775')`,
then decode the fixed-offset fields. -/
def parse_operating_mode (s : String) : Except PyExc OperatingMode :=
  if s.toList.take 3 = ['7', '7', '5'] then
    liftField (decodeOperatingFields s.toList)
  else
    .error (.assertionError "s[0:3] == .775.")

/-- The decoded error-status word: the dict built by
`Keithley775A.parse_error_status` (lines 771-775). -/
structure ErrorStatus where
  IDDC : Bool
  IDDCO : Bool
  gate_error : Bool
  self_test_error : Bool
deriving DecidableEq, Repr

/-- Field decoding of the error-status word (lines 771-775), evaluated
after both assertions have passed. -/
def decodeErrorFields (cs : List Char) : Except FieldErr ErrorStatus := do
  let IDDC := (← pyCharAt cs 3) = '1'
  let IDDCO := (← pyCharAt cs 4) = '1'
  let gate_error := (← pyCharAt cs 5) = '1'
  let self_test_error := (← pyCharAt cs 6) = '1'
  .ok { IDDC, IDDCO, gate_error, self_test_error }

/-- `s[-5:]` on a Python string: the last five characters, or the whole
string when it is shorter than five characters. -/
def pyLastFive (cs : List Char) : List Char :=
  if cs.length ≥ 5 then cs.drop (cs.length - 5) else cs

/-- `Keithley775A.parse_error_status` (lines 762-776) applied to the status
string `s`: `assert(s[0:3] == '775')`, `assert(s[-5:] == '00000')`, then
decode the four boolean fields. -/
def parse_error_status (s : String) : Except PyExc ErrorStatus :=
  if s.toList.take 3 = ['7', '7', '5'] then
    if pyLastFive s.toList = ['0', '0', '0', '0', '0'] then
      liftField (decodeErrorFields s.toList)
    else .error (.assertionError "s[-5:] == .00000.")
  else
    .error (.assertionError "s[0:3] == .775.")

/-- The `displayed_digits` setter (lines 456-462): the `isinstance(.., int)`
check always passes for an integer argument; values outside 3..9 raise
`RuntimeError` before anything is sent; otherwise the single command
`N<n>X` is transmitted.  The result is the list of transmitted commands. -/
def displayed_digits_set (n : Int) : Except PyExc (List String) :=
  if 3 ≤ n ∧ n ≤ 9 then .ok ["N" ++ toString n ++ "X"]
  else .error (.runtimeError "Display digits n=3 to 9")

/-- The `srq_mask` setter (lines 566-572): values outside 0..59 raise
`RuntimeError` before anything is sent; otherwise the single command
`M<n>X` is transmitted. -/
def srq_mask_set (n : Int) : Except PyExc (List String) :=
  if 0 ≤ n ∧ n ≤ 59 then .ok ["M" ++ toString n ++ "X"]
  else .error (.runtimeError "SRQ mask out of range")

end Keithley775A

namespace Keithley775A

lemma liftField_ne_assertion {α : Type} (r : Except FieldErr α) (site : String) :
    liftField r ≠ .error (.assertionError site) := by
  cases r with
  | ok a => simp [liftField]
  | error e => cases e <;> simp [liftField, FieldErr.toPyExc]

/-- Scratch check: a wrong-prefix status word is rejected. -/
example : parse_operating_mode "999blah" = .error (.assertionError "s[0:3] == .775.") := by
  rfl

example : parse_error_status "99500000" = .error (.assertionError "s[0:3] == .775.") := by
  rfl

/-- Scratch check: a good status word decodes. -/
example : (parse_operating_mode "7750000000000009000100").isOk := by decide

example : (parse_error_status "77501010000000000000000100000").isOk := by decide

end Keithley775A

/-- C1: for both status-word decoders (`parse_operating_mode` and
`parse_error_status`), a response string that does not begin with the
literal device-identifier `775` is rejected with the format (assertion)
error of the `'775'` check, whatever the rest of the string holds; and a
response that does begin with `775` is never rejected by that check. -/
theorem C1_status_word_device_id_guard (s : String) :
    (s.toList.take 3 ≠ ['7', '7', '5'] →
      Keithley775A.parse_operating_mode s
          = .error (.assertionError "s[0:3] == .775.") ∧
      Keithley775A.parse_error_status s
          = .error (.assertionError "s[0:3] == .775.")) ∧
    (s.toList.take 3 = ['7', '7', '5'] →
      Keithley775A.parse_operating_mode s
          ≠ .error (.assertionError "s[0:3] == .775.") ∧
      Keithley775A.parse_error_status s
          ≠ .error (.assertionError "s[0:3] == .775.")) := by
  constructor
  · intro h
    exact ⟨by simp only [Keithley775A.parse_operating_mode]; rw [if_neg h],
           by simp only [Keithley775A.parse_error_status]; rw [if_neg h]⟩
  · intro h
    simp only [Keithley775A.parse_operating_mode,
      Keithley775A.parse_error_status, h, if_true]
    refine ⟨Keithley775A.liftField_ne_assertion _ _, ?_⟩
    split
    · exact Keithley775A.liftField_ne_assertion _ _
    · simp

/-- Witness for C1: the theorem applied at the concrete wrong-prefix string
`999xyz` and at the concrete correct-prefix string `77555` (the latter has
a bad suffix and short length, so it fails later, but not for its prefix). -/
theorem C1_status_word_device_id_guard_witness :
    Keithley775A.parse_operating_mode "999xyz"
        = .error (.assertionError "s[0:3] == .775.") ∧
    Keithley775A.parse_error_status "77555"
        ≠ .error (.assertionError "s[0:3] == .775.") :=
  ⟨((C1_status_word_device_id_guard "999xyz").1 (by decide)).1,
   ((C1_status_word_device_id_guard "77555").2 (by decide)).2⟩

/-- C4: the bounds-checked integer setters.  `displayed_digits` (declared
bounds 3..9) and `srq_mask` (declared bounds 0..59) raise a range error and
transmit nothing for every integer outside the bounds, and transmit exactly
their one command for every integer inside the bounds (the transmitted
commands are the `.ok` payload; an error means nothing reached the
transport, since the source checks the bounds before `sendcmd`). -/
theorem C4_bounds_checked_setters (n : Int) :
    (¬(3 ≤ n ∧ n ≤ 9) →
      Keithley775A.displayed_digits_set n
          = .error (.runtimeError "Display digits n=3 to 9")) ∧
    ((3 ≤ n ∧ n ≤ 9) →
      Keithley775A.displayed_digits_set n = .ok ["N" ++ toString n ++ "X"]) ∧
    (¬(0 ≤ n ∧ n ≤ 59) →
      Keithley775A.srq_mask_set n
          = .error (.runtimeError "SRQ mask out of range")) ∧
    ((0 ≤ n ∧ n ≤ 59) →
      Keithley775A.srq_mask_set n = .ok ["M" ++ toString n ++ "X"]) := by
  refine ⟨fun h => ?_, fun h => ?_, fun h => ?_, fun h => ?_⟩ <;>
    simp [Keithley775A.displayed_digits_set, Keithley775A.srq_mask_set, h]

/-- Witness for C4: in-range value 5 is encoded and sent, out-of-range
values 10 and 60 are rejected. -/
theorem C4_bounds_checked_setters_witness :
    Keithley775A.displayed_digits_set 5 = .ok ["N5X"] ∧
    Keithley775A.displayed_digits_set 10
        = .error (.runtimeError "Display digits n=3 to 9") ∧
    Keithley775A.srq_mask_set 60
        = .error (.runtimeError "SRQ mask out of range") :=
  ⟨(C4_bounds_checked_setters 5).2.1 (by decide),
   (C4_bounds_checked_setters 10).1 (by decide),
   (C4_bounds_checked_setters 60).2.2.1 (by decide)⟩

/-- Zero-padding on the left to the requested number of characters. -/
def padLeftZeros (s : String) (k : Nat) : String :=
  String.mk (List.replicate (k - s.length) '0') ++ s

namespace Keithley775A

/-- The parameter units used by the Keithley driver (seconds, hertz, volts
and the dimensionless `1`), standing for the external `quantities` units. -/
inductive KUnit where
  | s
  | hz
  | volt
  | one
deriving DecidableEq, Repr

/-- A dimensioned quantity: a rational magnitude and a unit.  Rationals
stand for Python floats; every magnitude used in a verified scenario is
exactly representable in both. -/
structure Quantity where
  mag : Rat
  unit : KUnit
deriving DecidableEq, Repr

/-- `value.rescale('s')` for a quantity: succeeds (with the identity, since
seconds are the canonical time unit here) exactly when the quantity is in
seconds; any other dimension raises `ValueError` inside `quantities`, which
`isconvertible` (lines 33-38) reports as `False`. -/
def rescaleToSeconds (q : Quantity) : Option Quantity :=
  if q.unit = .s then some q else none

/-- `'{:f}'.format(x)`: Python fixed-point formatting with the default six
digits after the decimal point.  The magnitude is scaled by `10^6` and the
fractional remainder rounded half to even, which is what Python does on the
exact value of the float (exact, with a zero remainder, for every magnitude
appearing in the verified scenario).  Implemented on the rational's
numerator and denominator with primitive integer arithmetic. -/
def formatFixed6 (q : Rat) : String :=
  let sign := if q.num < 0 then "-" else ""
  let t : Nat := q.num.natAbs * 1000000
  let fl : Nat := t / q.den
  let r2 : Nat := (t % q.den) * 2
  let mn : Nat :=
    if r2 < q.den then fl
    else if q.den < r2 then fl + 1
    else if fl % 2 = 0 then fl else fl + 1
  sign ++ toString (mn / 1000000) ++ "." ++ padLeftZeros (toString (mn % 1000000)) 6

/-- Scratch check on the formatter. -/
example : formatFixed6 (mkRat 5 2) = "2.500000" := by decide

/-- `float(s)` on a Python string holding a plain decimal literal
(optional sign, integer digits, optional fraction digits); raises
`ValueError` on anything else.  Every response string in the verified
scenarios is of this form. -/
def pyFloat (s : String) : Except PyExc Rat :=
  let cs := s.toList
  let neg : Bool := cs.head? = some '-'
  let cs1 := if cs.head? = some '-' ∨ cs.head? = some '+' then cs.drop 1 else cs
  let ip := cs1.takeWhile Char.isDigit
  let rest := cs1.dropWhile Char.isDigit
  let signed : Rat → Rat := fun v => if neg then -v else v
  match rest with
  | [] =>
      if ip = [] then .error .valueError
      else .ok (signed (mkRat (digitsVal ip : Int) 1))
  | '.' :: fRest =>
      let fp := fRest.takeWhile Char.isDigit
      if fRest.dropWhile Char.isDigit ≠ [] then .error .valueError
      else if ip = [] ∧ fp = [] then .error .valueError
      else .ok (signed (mkRat ((digitsVal ip * 10 ^ fp.length + digitsVal fp : Nat) : Int)
        (10 ^ fp.length)))
  | _ => .error .valueError

example : pyFloat "2.500000" = .ok (mkRat 5 2) := by decide

/-- The values of `Keithley775A.DataControl` (lines 152-160), as an
enumeration (the cached `self.dc`). -/
inductive DataControl where
  | measuring_buffer
  | gate_time
  | delay_time
  | trigger_level_A
  | trigger_level_B
deriving DecidableEq, Repr

/-- The command digit of a `DataControl` member (its `IntEnum` value). -/
def DataControl.value : DataControl → Nat
  | .measuring_buffer => 0
  | .gate_time => 1
  | .delay_time => 2
  | .trigger_level_A => 3
  | .trigger_level_B => 4

/-- The `_data_control` setter (lines 332-344): for an argument of the
`DataControl` enum type (the `isinstance` check passes), the command
`B<n>X` is sent only when the cached `self.dc` differs from the new value;
the cache is then updated.  Returns (transmitted commands, new cache). -/
def dataControlSet (dc : DataControl) (newval : DataControl) :
    List String × DataControl :=
  (if dc ≠ newval then ["B" ++ toString newval.value ++ "X"] else [], newval)

/-- The argument of the `gate_time` setter: the source accepts either a
string (for the `USER` gate time) or a dimensioned quantity. -/
inductive GateTimeArg where
  | str (s : String)
  | qty (q : Quantity)

/-- The `gate_time` setter (lines 399-409): the string `U` sends `GUX`;
any other string reaches `isconvertible`, where `.rescale` on a `str`
raises `AttributeError`; a quantity not convertible to seconds raises
`TypeError`; otherwise the magnitude in seconds is formatted with
`'G{:f}X'` and that single command is sent. -/
def gate_time_set (newval : GateTimeArg) : Except PyExc (List String) :=
  match newval with
  | .str s =>
      if s = "U" then .ok ["GUX"]
      else .error (.attributeError "str object has no attribute rescale")
  | .qty q =>
      match rescaleToSeconds q with
      | none => .error (.typeError "Gate time must be convertible to seconds")
      | some gt => .ok ["G" ++ formatFixed6 gt.mag ++ "X"]

/-- `Keithley775A.get_gate_time` (lines 350-358): set the data control to
`gate_time` (sending `B1X` when the cache differs), query the device, and
interpret the response line as a number of seconds.  `resp` is the line the
device returns to the query; the result is (gate time, transmitted
commands, new data-control cache). -/
def get_gate_time (dc : DataControl) (resp : String) :
    Except PyExc (Quantity × List String × DataControl) := do
  let (sent, dc') := dataControlSet dc .gate_time
  let v ← pyFloat resp
  .ok (⟨v, .s⟩, sent ++ [""], dc')

end Keithley775A

/-- C7: setting `gate_time` to the quantity 2.5 s transmits exactly the
command `G2.500000X`, and getting `gate_time` when the device answers
`2.500000` returns the quantity 2.5 s (whatever the cached data-control
state was when the get started). -/
theorem C7_gate_time_round_trip :
    Keithley775A.gate_time_set (.qty ⟨mkRat 5 2, .s⟩) = .ok ["G2.500000X"] ∧
    ∀ dc : Keithley775A.DataControl,
      ∃ sent, Keithley775A.get_gate_time dc "2.500000"
          = .ok (⟨mkRat 5 2, .s⟩, sent, .gate_time) := by
  refine ⟨by decide, fun dc => ?_⟩
  cases dc <;>
    first
      | exact ⟨[""], by decide⟩
      | exact ⟨["B1X", ""], by decide⟩

namespace Wavetek39A

/-- `check_arb_name` (wavetek39a.py lines 25-32): a waveform name must
have between 1 and 8 characters, otherwise `RuntimeError`. -/
def check_arb_name (cpd : String) : Except PyExc Unit :=
  if 1 ≤ cpd.length ∧ cpd.length ≤ 8 then .ok ()
  else .error (.runtimeError ("Invalid name " ++ cpd))

/-- The negated test of the inner `check_val` (lines 46-48): `True` for a
sample outside -2048..2047. -/
def sampleOutOfRange (x : Int) : Bool :=
  !(decide (-2048 ≤ x ∧ x ≤ 2047))

/-- `prepare_for_sending` (lines 34-51): validate the name, then the
sample-list length (4..65536), then each sample's range (-2048..2047,
checked in list order so the first offending sample is reported); samples
are already integers, so `int(x)` is the identity.  Returns the length and
the sample list. -/
def prepare_for_sending (cpd : String) (csv : List Int) :
    Except PyExc (Nat × List Int) := do
  check_arb_name cpd
  let length := csv.length
  if length < 4 ∨ length > 65536 then
    throw (.runtimeError ("incorrect length of waveform " ++ toString length))
  else
    match csv.find? sampleOutOfRange with
    | some x => throw (.runtimeError ("out of range " ++ toString x))
    | none => return (length, csv)

/-- `Wavetek39A._arbitrary_send_data_csv` (lines 537-540): validate, then
transmit the single command `<command> <name>,<length>,<v1>,...,<vn>`. -/
def arbitrarySendDataCsv (cpd : String) (csv : List Int) (command : String) :
    Except PyExc (List String) := do
  let (length, csvint) ← prepare_for_sending cpd csv
  .ok [command ++ " " ++ cpd ++ "," ++ toString length ++ ","
        ++ String.intercalate "," (csvint.map toString)]

/-- One sample packed by `struct.pack('>..h', ..)`: two bytes, big endian,
two's complement. -/
def int16be (x : Int) : List Nat :=
  let v : Nat := (x % 65536).toNat
  [v / 256, v % 256]

/-- `struct.pack('>{n}h', *l)`: the concatenated big-endian 16-bit
encodings of the samples. -/
def structPackH (l : List Int) : List Nat :=
  l.foldr (fun x acc => int16be x ++ acc) []

/-- The bytes of an ASCII command string. -/
def strBytes (s : String) : List Nat := s.toList.map Char.toNat

/-- `Wavetek39A._arbitrary_send_data` (lines 542-549): validate, pack the
samples into binary, build the `#<digits><size>` header and transmit the
single command `<command> <name>,<length>,<header><binary>`; the command
is modelled as its byte sequence, since it mixes ASCII text with raw
sample bytes. -/
def arbitrarySendData (cpd : String) (csv : List Int) (command : String) :
    Except PyExc (List (List Nat)) := do
  let (length, csvint) ← prepare_for_sending cpd csv
  let binData := structPackH csvint
  let sizeStr := toString binData.length
  let header := "#" ++ toString sizeStr.length ++ sizeStr
  .ok [strBytes (command ++ " " ++ cpd ++ "," ++ toString length ++ "," ++ header)
        ++ binData]

/-- `Wavetek39A.arbitrary_define_csv` (lines 551-558). -/
def arbitrary_define_csv (cpd : String) (csv : List Int) :
    Except PyExc (List String) :=
  arbitrarySendDataCsv cpd csv "ARBDEFCSV"

/-- `Wavetek39A.arbitrary_data_csv` (lines 587-588). -/
def arbitrary_data_csv (cpd : String) (csv : List Int) :
    Except PyExc (List String) :=
  arbitrarySendDataCsv cpd csv "ARBDATACSV"

/-- `Wavetek39A.arbitrary_define` (lines 560-567). -/
def arbitrary_define (cpd : String) (csv : List Int) :
    Except PyExc (List (List Nat)) :=
  arbitrarySendData cpd csv "ARBDEF"

/-- `Wavetek39A.arbitrary_data` (lines 590-591). -/
def arbitrary_data (cpd : String) (csv : List Int) :
    Except PyExc (List (List Nat)) :=
  arbitrarySendData cpd csv "ARBDATA"

/-- The voltage modes of the `FunctionGenerator` contract used by
`_UNIT_MNEMONICS` (lines 76-80). -/
inductive VoltageMode where
  | peak_to_peak
  | rms
  | dBm
deriving DecidableEq, Repr

/-- `_UNIT_MNEMONICS` (lines 76-80) as a lookup. -/
def unitMnemonic : VoltageMode → String
  | .peak_to_peak => "VPP"
  | .rms => "VRMS"
  | .dBm => "DBM"

/-- `'{}'.format(x)` on a float whose exact value has a finite decimal
expansion (every value of a binary float does): the sign, the integer
part, a point and the shortest exact fraction digits, with `.0` for whole
numbers — e.g. `0.5` and `2.0`, as Python prints them. -/
def pyNumRepr (q : Rat) : String :=
  let sign := if q.num < 0 then "-" else ""
  match (List.range 1101).find? (fun k => (q.num.natAbs * 10 ^ k) % q.den = 0) with
  | some 0 => sign ++ toString (q.num.natAbs / q.den) ++ ".0"
  | some k =>
      let n := (q.num.natAbs * 10 ^ k) / q.den
      sign ++ toString (n / 10 ^ k) ++ "." ++ padLeftZeros (toString (n % 10 ^ k)) k
  | none => sign ++ toString q.num.natAbs ++ "/" ++ toString q.den

example : pyNumRepr (mkRat 1 2) = "0.5" := by decide

/-- `Wavetek39A._set_amplitude_` (lines 93-95): every call transmits two
commands, `AMPUNIT <mnemonic>` followed by `AMPL <magnitude>`. -/
def setAmplitude (units : VoltageMode) (magnitude : Rat) : List String :=
  ["AMPUNIT " ++ unitMnemonic units, "AMPL " ++ pyNumRepr magnitude]

end Wavetek39A

lemma exceptOkBind {ε α β : Type} (a : α) (f : α → Except ε β) :
    (Except.ok a : Except ε α) >>= f = f a := rfl

lemma exceptErrorBind {ε α β : Type} (e : ε) (f : α → Except ε β) :
    (Except.error e : Except ε α) >>= f = Except.error e := rfl

lemma exceptThrowEq {ε α : Type} (e : ε) : (throw e : Except ε α) = Except.error e := rfl

lemma exceptPureEq {ε α : Type} (a : α) : (pure a : Except ε α) = Except.ok a := rfl

namespace Wavetek39A

lemma sampleOutOfRange_iff (x : Int) :
    sampleOutOfRange x = true ↔ ¬(-2048 ≤ x ∧ x ≤ 2047) := by
  simp [sampleOutOfRange]
  omega

lemma check_arb_name_ok (cpd : String) (h1 : 1 ≤ cpd.length) (h2 : cpd.length ≤ 8) :
    check_arb_name cpd = .ok () := by
  rw [check_arb_name, if_pos ⟨h1, h2⟩]

lemma prepare_for_sending_ok (cpd : String) (csv : List Int)
    (h1 : 1 ≤ cpd.length ∧ cpd.length ≤ 8)
    (h2 : 4 ≤ csv.length ∧ csv.length ≤ 65536)
    (h3 : ∀ x ∈ csv, -2048 ≤ x ∧ x ≤ 2047) :
    prepare_for_sending cpd csv = .ok (csv.length, csv) := by
  have hfind : csv.find? sampleOutOfRange = none := by
    rw [List.find?_eq_none]
    intro x hx
    simp only [sampleOutOfRange_iff]
    exact fun hc => hc (h3 x hx)
  have hlen : ¬(csv.length < 4 ∨ csv.length > 65536) := by omega
  rw [prepare_for_sending, check_arb_name_ok cpd h1.1 h1.2, exceptOkBind]
  simp only [if_neg hlen, hfind, exceptPureEq]

lemma prepare_for_sending_err (cpd : String) (csv : List Int)
    (h : ¬(1 ≤ cpd.length ∧ cpd.length ≤ 8) ∨
         ¬(4 ≤ csv.length ∧ csv.length ≤ 65536) ∨
         ∃ x ∈ csv, ¬(-2048 ≤ x ∧ x ≤ 2047)) :
    ∃ m, prepare_for_sending cpd csv = .error (.runtimeError m) := by
  by_cases h1 : 1 ≤ cpd.length ∧ cpd.length ≤ 8
  · by_cases h2 : 4 ≤ csv.length ∧ csv.length ≤ 65536
    · have hbad : ∃ x ∈ csv, ¬(-2048 ≤ x ∧ x ≤ 2047) := by
        rcases h with h | h | h
        · exact absurd h1 h
        · exact absurd h2 h
        · exact h
      have hsome : (csv.find? sampleOutOfRange).isSome := by
        rw [List.find?_isSome]
        obtain ⟨x, hx, hxr⟩ := hbad
        exact ⟨x, hx, (sampleOutOfRange_iff x).mpr hxr⟩
      obtain ⟨y, hy⟩ := Option.isSome_iff_exists.mp hsome
      have hlen : ¬(csv.length < 4 ∨ csv.length > 65536) := by omega
      refine ⟨"out of range " ++ toString y, ?_⟩
      rw [prepare_for_sending, check_arb_name_ok cpd h1.1 h1.2, exceptOkBind]
      simp only [if_neg hlen, hy, exceptThrowEq]
    · have hlen : csv.length < 4 ∨ csv.length > 65536 := by omega
      refine ⟨"incorrect length of waveform " ++ toString csv.length, ?_⟩
      rw [prepare_for_sending, check_arb_name_ok cpd h1.1 h1.2, exceptOkBind]
      simp only [if_pos hlen, exceptThrowEq]
  · refine ⟨"Invalid name " ++ cpd, ?_⟩
    have hname : check_arb_name cpd
        = .error (.runtimeError ("Invalid name " ++ cpd)) := by
      rw [check_arb_name, if_neg h1]
    rw [prepare_for_sending, hname, exceptErrorBind]

end Wavetek39A

/-- C10: for each of the four arbitrary-waveform transfers
(`arbitrary_define`, `arbitrary_define_csv`, `arbitrary_data`,
`arbitrary_data_csv`), a name not 1..8 characters long, a sample list not
4..65536 samples long, or any sample outside -2048..2047 makes the call
raise `RuntimeError` with nothing transmitted, while valid input transmits
exactly one command that carries every sample (comma-joined decimal text
for the CSV forms, packed big-endian 16-bit words for the binary forms). -/
theorem C10_arbitrary_waveform_guards (cpd : String) (csv : List Int) :
    ((¬(1 ≤ cpd.length ∧ cpd.length ≤ 8) ∨
        ¬(4 ≤ csv.length ∧ csv.length ≤ 65536) ∨
        ∃ x ∈ csv, ¬(-2048 ≤ x ∧ x ≤ 2047)) →
      (∃ m, Wavetek39A.arbitrary_define_csv cpd csv = .error (.runtimeError m)) ∧
      (∃ m, Wavetek39A.arbitrary_data_csv cpd csv = .error (.runtimeError m)) ∧
      (∃ m, Wavetek39A.arbitrary_define cpd csv = .error (.runtimeError m)) ∧
      (∃ m, Wavetek39A.arbitrary_data cpd csv = .error (.runtimeError m))) ∧
    ((1 ≤ cpd.length ∧ cpd.length ≤ 8) →
     (4 ≤ csv.length ∧ csv.length ≤ 65536) →
     (∀ x ∈ csv, -2048 ≤ x ∧ x ≤ 2047) →
      Wavetek39A.arbitrary_define_csv cpd csv
          = .ok ["ARBDEFCSV " ++ cpd ++ "," ++ toString csv.length ++ ","
                 ++ String.intercalate "," (csv.map toString)] ∧
      Wavetek39A.arbitrary_data_csv cpd csv
          = .ok ["ARBDATACSV " ++ cpd ++ "," ++ toString csv.length ++ ","
                 ++ String.intercalate "," (csv.map toString)] ∧
      Wavetek39A.arbitrary_define cpd csv
          = .ok [Wavetek39A.strBytes ("ARBDEF " ++ cpd ++ ","
                   ++ toString csv.length ++ ","
                   ++ ("#" ++ toString (toString (Wavetek39A.structPackH csv).length).length
                       ++ toString (Wavetek39A.structPackH csv).length))
                 ++ Wavetek39A.structPackH csv] ∧
      Wavetek39A.arbitrary_data cpd csv
          = .ok [Wavetek39A.strBytes ("ARBDATA " ++ cpd ++ ","
                   ++ toString csv.length ++ ","
                   ++ ("#" ++ toString (toString (Wavetek39A.structPackH csv).length).length
                       ++ toString (Wavetek39A.structPackH csv).length))
                 ++ Wavetek39A.structPackH csv]) := by
  constructor
  · intro h
    obtain ⟨m, hm⟩ := Wavetek39A.prepare_for_sending_err cpd csv h
    refine ⟨⟨m, ?_⟩, ⟨m, ?_⟩, ⟨m, ?_⟩, ⟨m, ?_⟩⟩ <;>
      simp [Wavetek39A.arbitrary_define_csv, Wavetek39A.arbitrary_data_csv,
        Wavetek39A.arbitrary_define, Wavetek39A.arbitrary_data,
        Wavetek39A.arbitrarySendDataCsv, Wavetek39A.arbitrarySendData,
        hm, exceptErrorBind]
  · intro h1 h2 h3
    have hp := Wavetek39A.prepare_for_sending_ok cpd csv h1 h2 h3
    refine ⟨?_, ?_, ?_, ?_⟩ <;>
      simp [Wavetek39A.arbitrary_define_csv, Wavetek39A.arbitrary_data_csv,
        Wavetek39A.arbitrary_define, Wavetek39A.arbitrary_data,
        Wavetek39A.arbitrarySendDataCsv, Wavetek39A.arbitrarySendData,
        hp, exceptOkBind, String.append_assoc]

/-- Witness for C10: the four transfers succeed with one full command on
name `wave` and samples `[0, 1, -5, 2047]`, and all reject the empty name
with a `RuntimeError`. -/
theorem C10_arbitrary_waveform_guards_witness :
    Wavetek39A.arbitrary_define_csv "wave" [0, 1, -5, 2047]
        = .ok ["ARBDEFCSV wave,4,0,1,-5,2047"] ∧
    (∃ m, Wavetek39A.arbitrary_data "" [0, 0, 0, 0]
        = .error (.runtimeError m)) := by
  constructor
  · have hok := (C10_arbitrary_waveform_guards "wave" [0, 1, -5, 2047]).2
      (by decide) (by decide) (by decide)
    rw [hok.1]
    decide
  · exact ((C10_arbitrary_waveform_guards "" [0, 0, 0, 0]).1
      (by decide)).2.2.2

/-- Counterexample for C5: the claim that every parameter-setting call
transmits exactly one command when validation succeeds (and never two or
more) is false on the code.  `Wavetek39A._set_amplitude_` transmits two
commands on every call (`AMPUNIT` then `AMPL`), and the
`Keithley775A._data_control` setter transmits zero commands on a
successful call whose value equals the cached one. -/
theorem C5_counterexample_setter_command_counts :
    Wavetek39A.setAmplitude .peak_to_peak (mkRat 1 2)
        = ["AMPUNIT VPP", "AMPL 0.5"] ∧
    (Wavetek39A.setAmplitude .peak_to_peak (mkRat 1 2)).length = 2 ∧
    Keithley775A.dataControlSet .gate_time .gate_time = ([], .gate_time) := by
  exact ⟨by decide, by decide, by decide⟩

/-- C5 (amended): every modelled parameter-setting call transmits a fixed
number of commands — zero when validation fails, and on success exactly
one, except that `Wavetek39A._set_amplitude_` always transmits exactly two
(`AMPUNIT` then `AMPL`) and `Keithley775A._data_control` transmits zero
when the requested value equals the cached one (one otherwise). -/
theorem C5_amended_setter_command_counts :
    (∀ (u : Wavetek39A.VoltageMode) (m : Rat),
        (Wavetek39A.setAmplitude u m).length = 2) ∧
    (∀ dc newval : Keithley775A.DataControl,
        (Keithley775A.dataControlSet dc newval).1.length
          = if dc = newval then 0 else 1) ∧
    (∀ n : Int, ∀ l, Keithley775A.displayed_digits_set n = .ok l → l.length = 1) ∧
    (∀ n : Int, ∀ l, Keithley775A.srq_mask_set n = .ok l → l.length = 1) ∧
    (∀ g, ∀ l, Keithley775A.gate_time_set g = .ok l → l.length = 1) := by
  refine ⟨fun u m => rfl, fun dc newval => ?_, fun n l h => ?_, fun n l h => ?_,
    fun g l h => ?_⟩
  · by_cases hdc : dc = newval <;> simp [Keithley775A.dataControlSet, hdc]
  · rw [Keithley775A.displayed_digits_set] at h
    split at h
    · cases h
      rfl
    · cases h
  · rw [Keithley775A.srq_mask_set] at h
    split at h
    · cases h
      rfl
    · cases h
  · cases g with
    | str s =>
        rw [Keithley775A.gate_time_set] at h
        split at h
        · cases h
          rfl
        · cases h
    | qty q =>
        rw [Keithley775A.gate_time_set] at h
        split at h
        · cases h
        · cases h
          rfl

/-- Witness for C5 (amended): the theorem applied at concrete inputs — an
amplitude set transmits two commands, and the in-range `displayed_digits`
set of 5 transmits the single command `N5X`. -/
theorem C5_amended_setter_command_counts_witness :
    (Wavetek39A.setAmplitude .rms (mkRat 3 1)).length = 2 ∧
    (["N5X"] : List String).length = 1 :=
  ⟨C5_amended_setter_command_counts.1 .rms (mkRat 3 1),
   C5_amended_setter_command_counts.2.2.1 5 ["N5X"] (by decide)⟩

namespace NewportESP301

/-- `NewportError.messageDict` (newportesp301.py lines 93-169): the static
error table, keyed by the decimal code string for global errors and by
`x`-prefixed two-digit sub-code strings for axis errors. -/
def messageDict : String → Option String
  | "0" => some "NO ERROR DETECTED"
  | "1" => some "PCI COMMUNICATION TIME-OUT"
  | "2" => some "Reserved for future use"
  | "3" => some "Reserved for future use"
  | "4" => some "EMERGENCY SOP ACTIVATED"
  | "5" => some "Reserved for future use"
  | "6" => some "COMMAND DOES NOT EXIST"
  | "7" => some "PARAMETER OUT OF RANGE"
  | "8" => some "CABLE INTERLOCK ERROR"
  | "9" => some "AXIS NUMBER OUT OF RANGE"
  | "10" => some "Reserved for future use"
  | "11" => some "Reserved for future use"
  | "12" => some "Reserved for future use"
  | "13" => some "GROUP NUMBER MISSING"
  | "14" => some "GROUP NUMBER OUT OF RANGE"
  | "15" => some "GROUP NUMBER NOT ASSIGNED"
  | "16" => some "GROUP NUMBER ALREADY ASSIGNED"
  | "17" => some "GROUP AXIS OUT OF RANGE"
  | "18" => some "GROUP AXIS ALREADY ASSIGNED"
  | "19" => some "GROUP AXIS DUPLICATED"
  | "20" => some "DATA ACQUISITION IS BUSY"
  | "21" => some "DATA ACQUISITION SETUP ERROR"
  | "22" => some "DATA ACQUISITION NOT ENABLED"
  | "23" => some "SERVO CYCLE (400 µS) TICK FAILURE"
  | "24" => some "Reserved for future use"
  | "25" => some "DOWNLOAD IN PROGRESS"
  | "26" => some "STORED PROGRAM NOT STARTEDL"
  | "27" => some "COMMAND NOT ALLOWEDL"
  | "28" => some "STORED PROGRAM FLASH AREA FULL"
  | "29" => some "GROUP PARAMETER MISSING"
  | "30" => some "GROUP PARAMETER OUT OF RANGE"
  | "31" => some "GROUP MAXIMUM VELOCITY EXCEEDED"
  | "32" => some "GROUP MAXIMUM ACCELERATION EXCEEDED"
  | "33" => some "GROUP MAXIMUM DECELERATION EXCEEDED"
  | "34" => some " GROUP MOVE NOT ALLOWED DURING MOTION"
  | "35" => some "PROGRAM NOT FOUND"
  | "36" => some "Reserved for future use"
  | "37" => some "AXIS NUMBER MISSING"
  | "38" => some "COMMAND PARAMETER MISSING"
  | "39" => some "PROGRAM LABEL NOT FOUND"
  | "40" => some "LAST COMMAND CANNOT BE REPEATED"
  | "41" => some "MAX NUMBER OF LABELS PER PROGRAM EXCEEDED"
  | "x00" => some "MOTOR TYPE NOT DEFINED"
  | "x01" => some "PARAMETER OUT OF RANGE"
  | "x02" => some "AMPLIFIER FAULT DETECTED"
  | "x03" => some "FOLLOWING ERROR THRESHOLD EXCEEDED"
  | "x04" => some "POSITIVE HARDWARE LIMIT DETECTED"
  | "x05" => some "NEGATIVE HARDWARE LIMIT DETECTED"
  | "x06" => some "POSITIVE SOFTWARE LIMIT DETECTED"
  | "x07" => some "NEGATIVE SOFTWARE LIMIT DETECTED"
  | "x08" => some "MOTOR / STAGE NOT CONNECTED"
  | "x09" => some "FEEDBACK SIGNAL FAULT DETECTED"
  | "x10" => some "MAXIMUM VELOCITY EXCEEDED"
  | "x11" => some "MAXIMUM ACCELERATION EXCEEDED"
  | "x12" => some "Reserved for future use"
  | "x13" => some "MOTOR NOT ENABLED"
  | "x14" => some "Reserved for future use"
  | "x15" => some "MAXIMUM JERK EXCEEDED"
  | "x16" => some "MAXIMUM DAC OFFSET EXCEEDED"
  | "x17" => some "ESP CRITICAL SETTINGS ARE PROTECTED"
  | "x18" => some "ESP STAGE DEVICE ERROR"
  | "x19" => some "ESP STAGE DATA INVALID"
  | "x20" => some "HOMING ABORTED"
  | "x21" => some "MOTOR CURRENT NOT DEFINED"
  | "x22" => some "UNIDRIVE COMMUNICATIONS ERROR"
  | "x23" => some "UNIDRIVE NOT DETECTED"
  | "x24" => some "SPEED OUT OF RANGE"
  | "x25" => some "INVALID TRAJECTORY MASTER AXIS"
  | "x26" => some "PARAMETER CHARGE NOT ALLOWED"
  | "x27" => some "INVALID TRAJECTORY MODE FOR HOMING"
  | "x28" => some "INVALID ENCODER STEP RATIO"
  | "x29" => some "DIGITAL I/O INTERLOCK DETECTED"
  | "x30" => some "COMMAND NOT ALLOWED DURING HOMING"
  | "x31" => some "COMMAND NOT ALLOWED DUE TO GROUP"
  | "x32" => some "INVALID TRAJECTORY MODE FOR MOVING"
  | _ => none

/-- `NewportError.getMessage` (lines 229-230): static lookup with a
generic fallback for unknown codes. -/
def getMessage (code : String) : String :=
  (messageDict code).getD "Error code not recognised"

/-- Resolution of a Python `str.format` template: literal pieces
interleaved with positional placeholder indices; an index at or past the
end of the argument list raises `IndexError`, exactly as `.format` does. -/
def pyFormatParts : List (String ⊕ Nat) → List String → Except PyExc String
  | [], _ => .ok ""
  | (.inl s) :: rest, args =>
      match pyFormatParts rest args with
      | .ok t => .ok (s ++ t)
      | .error e => .error e
  | (.inr i) :: rest, args =>
      match args.get? i with
      | some a =>
          match pyFormatParts rest args with
          | .ok t => .ok (a ++ t)
          | .error e => .error e
      | none => .error .indexError

/-- The template of line 185 — its placeholders are the indices 0, 1 and 3
(`{3}` is in the source text), although only three arguments are
supplied. -/
def globalErrorTemplate : List (String ⊕ Nat) :=
  [.inl "Newport Error: ", .inr 0, .inl ". Error Message: ", .inr 1,
   .inl ". At time : ", .inr 3]

/-- The template of line 189: placeholders 0, 1, 2, 3 with four
arguments. -/
def axisErrorTemplate : List (String ⊕ Nat) :=
  [.inl "Newport Error: ", .inr 0, .inl ". Axis: ", .inr 1,
   .inl ". Error Message: ", .inr 2, .inl ". At time : ", .inr 3]

/-- The error-code decomposition of `NewportError.__init__`
(lines 180-183): sub-code `code % 100`, axis `code // 100`, with axis 0
turned into "no axis".  Lean's `%` and `/` on `Int` agree with Python's
floor semantics for the positive divisor 100. -/
def NewportError.decompose (c : Int) : Int × Option Int :=
  let ec : Int := c % 100
  let ax : Int := c / 100
  (ec, if ax = 0 then none else some ax)

/-- The structured content of a constructed `NewportError`. -/
structure NewportErrorState where
  errcode : Option Int
  axis : Option Int
  message : String
  timestamp : String
deriving DecidableEq, Repr

/-- `NewportError.__init__` (lines 170-195): decompose the code; global
errors (axis 0) look the full code up and build their message with the
template of line 185 (whose `{3}` placeholder exceeds the three supplied
arguments), axis errors look up `x<sub-code>` and build theirs with the
template of line 189.  `timestampStr` is the formatted
`self._timestamp`. -/
def NewportError.init (errcode : Option Int) (timestampStr : String) :
    Except PyExc NewportErrorState :=
  match errcode with
  | none => .ok ⟨none, none, "", timestampStr⟩
  | some c =>
      let dec := NewportError.decompose c
      match dec.2 with
      | none =>
          match pyFormatParts globalErrorTemplate
              [toString c, getMessage (toString c), timestampStr] with
          | .error e => .error e
          | .ok msg => .ok ⟨some dec.1, none, msg, timestampStr⟩
      | some ax =>
          match pyFormatParts axisErrorTemplate
              [toString dec.1, toString ax, getMessage ("x" ++ toString dec.1),
               timestampStr] with
          | .error e => .error e
          | .ok msg => .ok ⟨some dec.1, some ax, msg, timestampStr⟩

end NewportESP301

/-- C2: for every non-negative integer error code, `NewportError`
decomposes it into sub-code `code % 100` and axis `code // 100`, axis 0
meaning a global (no-axis) error; in particular 305 gives axis 3 and
sub-code 5, and 7 gives no axis and sub-code 7. -/
theorem C2_newport_error_code_decomposition (n : Nat) :
    NewportESP301.NewportError.decompose (n : Int)
        = (((n % 100 : Nat) : Int),
           if (n / 100 : Nat) = 0 then none else some ((n / 100 : Nat) : Int)) ∧
    ((NewportESP301.NewportError.decompose (n : Int)).2 = none ↔ n < 100) ∧
    NewportESP301.NewportError.decompose 305 = (5, some 3) ∧
    NewportESP301.NewportError.decompose 7 = (7, none) := by
  have hm : ((n : Int) % 100) = ((n % 100 : Nat) : Int) := by omega
  have hd : ((n : Int) / 100) = ((n / 100 : Nat) : Int) := by omega
  have hc : (((n / 100 : Nat) : Int) = 0) ↔ (n / 100 : Nat) = 0 := by
    exact Int.natCast_eq_zero
  refine ⟨?_, ?_, by decide, by decide⟩
  · simp only [NewportESP301.NewportError.decompose]
    by_cases h0 : (n / 100 : Nat) = 0
    · rw [hm, if_pos (show ((n : Int) / 100) = 0 by omega), if_pos h0]
    · rw [hm, if_neg (show ¬((n : Int) / 100) = 0 by omega), if_neg h0, hd]
  · simp only [NewportESP301.NewportError.decompose]
    split
    · next h =>
        simp
        omega
    · next h =>
        simp
        omega

namespace NewportESP301

/-- The mutable controller state of a `NewportESP301` instance
(`_execute_immediately`, `_command_list`) together with the log of
everything transmitted over the transport (each `sendcmd` payload and
each `query` payload, in order). -/
structure ESPState where
  executeImmediately : Bool
  commandList : List String
  sent : List String
deriving DecidableEq, Repr

/-- The device on the other end of the transport: its response line for
each query payload. -/
structure ESPDevice where
  resp : String → String

/-- Splitting a character list at every separator (keeping empty pieces),
structurally recursive so that concrete runs evaluate. -/
def splitCharsOn (p : Char → Bool) : List Char → List Char → List (List Char)
  | [], acc => [acc.reverse]
  | c :: rest, acc =>
      if p c then acc.reverse :: splitCharsOn p rest []
      else splitCharsOn p rest (c :: acc)

/-- Python `s.split(",")`. -/
def splitOnComma (s : String) : List String :=
  (splitCharsOn (fun c => c = ',') s.toList []).map String.mk

/-- Python `s.upper()` on the ASCII command mnemonics. -/
def pyUpper (s : String) : String :=
  String.mk (s.toList.map Char.toUpper)

/-- `NewportESP301._execute_cmd` (lines 324-350): transmit the command (as
a query when it contains `?`, else as a bare send); when `errcheck` is on,
query `TB?`, unpack `code,timestamp,message`, and for a non-zero code
raise the exception built by `NewportError(code)` — whose own construction
can itself raise (the `{3}` placeholder of line 185).  `now` is the
formatted wall-clock timestamp `NewportError` would embed. -/
def executeCmdValue (dev : ESPDevice) (now : String) (rawCmd : String)
    (errcheck : Bool) : Except PyExc (Option String) :=
  let qresp : Option String :=
    if rawCmd.toList.contains '?' then some (dev.resp rawCmd) else none
  if errcheck then
    match splitOnComma (dev.resp "TB?") with
    | [codeStr, _ts, _msg] =>
        match pyIntString codeStr with
        | .error e => .error e
        | .ok code =>
            if code ≠ 0 then
              match NewportError.init (some code) now with
              | .error e => .error e
              | .ok ne => .error (.newportError ne.errcode ne.axis ne.message)
            else .ok qresp
    | _ => .error .valueError
  else .ok qresp

/-- The payloads `_execute_cmd` puts on the transport: the command itself
(as a query when it contains `?`), then — with error checking on — the
`TB?` query; both are transmitted before the check's outcome is known, so
the log does not depend on it. -/
def executeCmdSent (rawCmd : String) (errcheck : Bool) : List String :=
  if errcheck then [rawCmd, "TB?"] else [rawCmd]

def executeCmd (dev : ESPDevice) (now : String) (rawCmd : String)
    (errcheck : Bool) (st : ESPState) :
    Except PyExc (Option String) × ESPState :=
  (executeCmdValue dev now rawCmd errcheck,
   {st with sent := st.sent ++ executeCmdSent rawCmd errcheck})

/-- `NewportESP301._newport_cmd` (lines 290-322): build
`<target><CMD><comma-joined params>`; execute immediately (with error
check) in immediate mode, or append to `_command_list` in bulk mode. -/
def newportCmd (dev : ESPDevice) (now : String) (cmd : String)
    (params : List String) (target : Option Nat) (errcheck : Bool)
    (st : ESPState) : Except PyExc (Option String) × ESPState :=
  let rawCmd := (match target with | some t => toString t | none => "")
      ++ pyUpper cmd ++ String.intercalate "," params
  if st.executeImmediately then executeCmd dev now rawCmd errcheck st
  else (.ok none, {st with commandList := st.commandList ++ [rawCmd]})

/-- A device that reports the global error code 6 on `TB?`. -/
def devGlobalErr : ESPDevice :=
  ⟨fun q => if q = "TB?" then "6,0,COMMAND DOES NOT EXIST" else ""⟩

/-- A device that reports no error on `TB?`. -/
def devNoErr : ESPDevice :=
  ⟨fun q => if q = "TB?" then "0,0,NO ERROR DETECTED" else ""⟩

/-- A device that reports the axis-qualified error code 105 on `TB?`. -/
def devAxisErr : ESPDevice :=
  ⟨fun q => if q = "TB?" then "105,0,NEGATIVE HARDWARE LIMIT DETECTED" else ""⟩

end NewportESP301

/-- C3 (evidence): after transmitting a command with error checking on,
`_execute_cmd` queries `TB?`; a zero code raises nothing, and a non-zero
axis-qualified code raises `NewportError` with the decoded sub-code, axis
and timestamped message (a single-digit sub-code is looked up as `x5`, not
`x05`, so it gets the generic fallback message — faithful to line 188).  But for a non-zero GLOBAL code (1..99, axis 0)
the construction of `NewportError` itself crashes on the `{3}` placeholder
of line 185 (three arguments, index 3), so the call raises `IndexError`
instead of the claimed `NewportError` — the code bug behind this claim's
status.  The error is still never swallowed, and the command is
transmitted before the check in all cases. -/
theorem C3_device_error_surfacing :
    (NewportESP301.executeCmd NewportESP301.devGlobalErr "T" "1PA1.0" true
        ⟨true, [], []⟩).1 = .error .indexError ∧
    (NewportESP301.executeCmd NewportESP301.devNoErr "T" "1PA1.0" true
        ⟨true, [], []⟩).1 = .ok none ∧
    (NewportESP301.executeCmd NewportESP301.devAxisErr "T" "1PA1.0" true
        ⟨true, [], []⟩).1
      = .error (.newportError (some 5) (some 1)
          ("Newport Error: 5. Axis: 1. Error Message: "
            ++ "Error code not recognised. At time : T")) ∧
    (NewportESP301.executeCmd NewportESP301.devGlobalErr "T" "1PA1.0" true
        ⟨true, [], []⟩).2.sent = ["1PA1.0", "TB?"] := by
  decide

namespace NewportESP301

/-- `reduce(lambda x, y: x + ' ; ' + y + ' ; ', command_list)` of line 422:
left fold with no initial value — `None` (a `TypeError`) on an empty
list. -/
def joinReduce : List String → Option String
  | [] => none
  | x :: rest => some (rest.foldl (fun a y => a ++ " ; " ++ y ++ " ; ") x)

/-- `NewportESP301.execute_bulk_command` (lines 410-425) driving an
arbitrary `with`-block body: enter bulk mode, run the body, and — only
when the body finished without an exception, since the generator has no
`try`/`finally` around its `yield` — join the buffered commands, execute
them as one compound command with a single error check, clear the buffer
and restore immediate mode.  A body exception propagates with the
controller state exactly as the body left it. -/
def executeBulkCommand (dev : ESPDevice) (now : String) (errcheck : Bool)
    (body : ESPState → Except PyExc Unit × ESPState) (st : ESPState) :
    Except PyExc Unit × ESPState :=
  let st1 : ESPState := {st with executeImmediately := false}
  match body st1 with
  | (.error e, st2) => (.error e, st2)
  | (.ok _, st2) =>
      match joinReduce st2.commandList with
      | none => (.error (.typeError "reduce() of empty sequence with no initial value"), st2)
      | some cmdStr =>
          match executeCmd dev now cmdStr errcheck st2 with
          | (.error e, st3) => (.error e, st3)
          | (.ok _, st3) =>
              (.ok (), {st3 with commandList := [], executeImmediately := true})

/-- A `with`-block body that issues one axis move through `_newport_cmd`
and then raises. -/
def bulkFailingBody (dev : ESPDevice) (now : String) :
    ESPState → Except PyExc Unit × ESPState := fun st =>
  match newportCmd dev now "PA" ["1.0"] (some 1) true st with
  | (.error e, st2) => (.error e, st2)
  | (.ok _, st2) => (.error (.runtimeError "boom"), st2)

/-- A `with`-block body that issues two axis moves through
`_newport_cmd` and returns normally. -/
def bulkTwoMoveBody (dev : ESPDevice) (now : String) :
    ESPState → Except PyExc Unit × ESPState := fun st =>
  match newportCmd dev now "PA" ["1.0"] (some 1) true st with
  | (.error e, st2) => (.error e, st2)
  | (.ok _, st2) =>
      match newportCmd dev now "PA" ["0.5"] (some 2) true st2 with
      | (.error e, st3) => (.error e, st3)
      | (.ok _, st3) => (.ok (), st3)

end NewportESP301

/-- Counterexample for C8: when an error is raised mid-span, the bulk
command context does NOT flush, empty the buffer or restore
immediate-execution mode (its generator has no `try`/`finally`): after a
body that buffers `1PA1.0` and then raises, the exception propagates with
the command still buffered, nothing transmitted and the controller still
in buffered mode — contradicting the claimed flush-on-error-exit. -/
theorem C8_counterexample_no_flush_on_error :
    NewportESP301.executeBulkCommand NewportESP301.devNoErr "T" true
        (NewportESP301.bulkFailingBody NewportESP301.devNoErr "T")
        ⟨true, [], []⟩
      = (.error (.runtimeError "boom"),
         ⟨false, ["1PA1.0"], []⟩) := by
  decide

/-- C8 (amended): commands issued inside the bulk span are buffered, and
on NORMAL exit the buffered commands are flushed as one joined compound
string with a single `TB?` error check, the buffer is emptied and
immediate-execution mode is restored; but on exit caused by an error
raised mid-span nothing is flushed — the exception propagates with the
controller state (buffer contents, buffered mode) exactly as the body
left it. -/
theorem C8_bulk_command_flush (dev : NewportESP301.ESPDevice) (now : String)
    (body : NewportESP301.ESPState →
      Except PyExc Unit × NewportESP301.ESPState)
    (st : NewportESP301.ESPState) :
    (∀ e st2,
      body {st with executeImmediately := false} = (.error e, st2) →
      NewportESP301.executeBulkCommand dev now true body st = (.error e, st2)) ∧
    (∀ st2 j c t m,
      body {st with executeImmediately := false} = (.ok (), st2) →
      NewportESP301.joinReduce st2.commandList = some j →
      NewportESP301.splitOnComma (dev.resp "TB?") = [c, t, m] →
      pyIntString c = .ok 0 →
      NewportESP301.executeBulkCommand dev now true body st =
        (.ok (), { executeImmediately := true, commandList := [],
                   sent := st2.sent ++ [j, "TB?"] })) := by
  constructor
  · intro e st2 hbody
    simp [NewportESP301.executeBulkCommand, hbody]
  · intro st2 j c t m hbody hjoin htb hcode
    simp only [NewportESP301.executeBulkCommand, hbody, hjoin]
    simp only [NewportESP301.executeCmd, NewportESP301.executeCmdValue,
      NewportESP301.executeCmdSent, htb, hcode]
    simp


/-- Witness for C8 (amended): a concrete two-move span flushes one joined
compound command plus its single `TB?` check and restores immediate mode,
while a concrete failing span propagates its error with the buffer
retained and nothing transmitted. -/
theorem C8_bulk_command_flush_witness :
    NewportESP301.executeBulkCommand NewportESP301.devNoErr "T" true
        (NewportESP301.bulkTwoMoveBody NewportESP301.devNoErr "T") ⟨true, [], []⟩
      = (.ok (), ⟨true, [], ["1PA1.0 ; 2PA0.5 ; ", "TB?"]⟩) ∧
    NewportESP301.executeBulkCommand NewportESP301.devNoErr "T" true
        (NewportESP301.bulkFailingBody NewportESP301.devNoErr "T") ⟨true, [], []⟩
      = (.error (.runtimeError "boom"), ⟨false, ["1PA1.0"], []⟩) := by
  constructor
  · have h := (C8_bulk_command_flush NewportESP301.devNoErr "T"
        (NewportESP301.bulkTwoMoveBody NewportESP301.devNoErr "T")
        ⟨true, [], []⟩).2 ⟨false, ["1PA1.0", "2PA0.5"], []⟩
        "1PA1.0 ; 2PA0.5 ; " "0" "0" "NO ERROR DETECTED"
        (by decide) (by decide) (by decide) (by decide)
    simpa using h
  · exact (C8_bulk_command_flush NewportESP301.devNoErr "T"
        (NewportESP301.bulkFailingBody NewportESP301.devNoErr "T")
        ⟨true, [], []⟩).1 (.runtimeError "boom") ⟨false, ["1PA1.0"], []⟩
        (by decide)

namespace NewportESP301

/-- The unit objects of `NewportESP301Axis._unit_dict` (lines 451-464). -/
inductive PQUnit where
  | count
  | mm
  | um
  | inch
  | mil
  | uinch
  | deg
  | grad
  | rad
  | mrad
  | urad
deriving DecidableEq, Repr

/-- `_unit_dict` (lines 451-464): unit code to `quantities` unit; codes 0
and 1 (encoder and motor steps) both map to counts. -/
def unitDict : Nat → Option PQUnit
  | 0 => some .count
  | 1 => some .count
  | 2 => some .mm
  | 3 => some .um
  | 4 => some .inch
  | 5 => some .mil
  | 6 => some .uinch
  | 7 => some .deg
  | 8 => some .grad
  | 9 => some .rad
  | 10 => some .mrad
  | 11 => some .urad
  | _ => none

/-- Interpretation of the `SN?` response by the `units` property getter
(lines 698-711): `int(...)` on the response (a `TypeError` when the
response is `None`, i.e. when the command was buffered instead of
queried), validation against `NewportESP301Units` (0..11, else
`ValueError`) and the `_unit_dict` lookup. -/
def unitsOfResponse (resp : Option String) : Except PyExc PQUnit :=
  match resp with
  | none => .error (.typeError "int() argument must be a string or a number")
  | some r =>
      match pyIntString r with
      | .error e => .error e
      | .ok n =>
          if 0 ≤ n then
            match unitDict n.toNat with
            | some u => .ok u
            | none => .error .valueError
          else .error .valueError

/-- The `units` property getter (lines 698-711): query `SN?` for the axis
and decode the response. -/
def queryUnits (dev : ESPDevice) (now : String) (axisId : Nat)
    (st : ESPState) : Except PyExc PQUnit × ESPState :=
  let r := newportCmd dev now "SN?" [] (some axisId) true st
  (match r.1 with
   | .error e => .error e
   | .ok resp => unitsOfResponse resp,
   r.2)

/-- One axis handle: its 1-based id and the unit cached at construction. -/
structure Axis where
  axisId : Nat
  units : PQUnit
deriving DecidableEq, Repr

/-- `NewportESP301Axis.__init__` (lines 467-476): the controller type
check passes, the id is stored, and `self._units = self.units` queries the
device once. -/
def mkAxis (dev : ESPDevice) (now : String) (axisId : Nat) (st : ESPState) :
    Except PyExc Axis × ESPState :=
  let r := queryUnits dev now axisId st
  (match r.1 with
   | .error e => .error e
   | .ok u => .ok ⟨axisId, u⟩,
   r.2)

/-- `_AxisList.__getitem__` (lines 241-250): a negative index raises
`IndexError`; otherwise a fresh axis handle is constructed eagerly (the
default argument of `dict.get` is evaluated on every access), the cached
handle is preferred when one is present, and the returned handle is
(re)stored under the 1-based key. -/
def axisListGetitem (dev : ESPDevice) (now : String)
    (d : Nat → Option Axis) (idx : Int) (st : ESPState) :
    Except PyExc (Axis × (Nat → Option Axis)) × ESPState :=
  if idx < 0 then (.error .indexError, st)
  else
    let key : Nat := idx.toNat + 1
    match mkAxis dev now key st with
    | (.error e, st2) => (.error e, st2)
    | (.ok fresh, st2) =>
        let ax := (d key).getD fresh
        (.ok (ax, fun k => if k = key then some ax else d k), st2)

/-- `NewportESP301.axis` (lines 269-286): every property access returns a
fresh `_AxisList` with an empty cache, so indexing goes through
`_AxisList.__getitem__` on an empty dict. -/
def axisProperty (dev : ESPDevice) (now : String) (idx : Int)
    (st : ESPState) : Except PyExc (Axis × (Nat → Option Axis)) × ESPState :=
  axisListGetitem dev now (fun _ => none) idx st

lemma mkAxis_value_indep (dev : ESPDevice) (now : String) (k : Nat)
    (st st' : ESPState) (h : st.executeImmediately = true)
    (h' : st'.executeImmediately = true) :
    (mkAxis dev now k st).1 = (mkAxis dev now k st').1 := by
  simp only [mkAxis, queryUnits, newportCmd, executeCmd, h, h', if_true]

lemma mkAxis_state_immediate (dev : ESPDevice) (now : String) (k : Nat)
    (st : ESPState) (h : st.executeImmediately = true) :
    ((mkAxis dev now k st).2).executeImmediately = true ∧
    ((mkAxis dev now k st).2).commandList = st.commandList := by
  simp only [mkAxis, queryUnits, newportCmd, executeCmd, h, if_true]
  exact ⟨trivial, trivial⟩

end NewportESP301

namespace Keithley775A

/-- A channel handle of the Keithley 775A
(`Keithley775A.Channel.__init__`, lines 176-180): the stored id is
1-based and the channel letter is `A` for index 0 and `B` for index 1. -/
structure Channel where
  idx1 : Nat
  ch : Char
deriving DecidableEq, Repr

/-- `Channel.__init__` (lines 176-180): `assert idx == 0 or idx == 1`,
then `_idx = idx + 1` and `_ch = 'A' if idx == 0 else 'B'`. -/
def channelInit (idx : Nat) : Except PyExc Channel :=
  if idx = 0 ∨ idx = 1 then
    .ok ⟨idx + 1, if idx = 0 then 'A' else 'B'⟩
  else .error (.assertionError "idx == 0 or idx == 1")

/-- Modelled from the spec: `ProxyList` (`instruments.util_fns`) is not
under `src/`.  Per the spec's proxy contract (section 4.3), the `channel`
collection (lines 269-281, valid set `range(2)`) rejects a negative index
with an `IndexError`, rejects an index past the valid set likewise, and
otherwise constructs the handle for the selected valid-set entry on each
access. -/
def channelGetitem (idx : Int) : Except PyExc Channel :=
  if idx < 0 then .error .indexError
  else if idx.toNat < 2 then channelInit idx.toNat
  else .error .indexError

end Keithley775A

namespace NewportESP301

lemma mkAxis_ok_axisId (dev : ESPDevice) (now : String) (k : Nat)
    (st : ESPState) (a : Axis) (st2 : ESPState)
    (h : mkAxis dev now k st = (.ok a, st2)) : a.axisId = k := by
  have h1 : (mkAxis dev now k st).1 = .ok a := by rw [h]
  revert h1
  simp only [mkAxis]
  cases hq : (queryUnits dev now k st).1 with
  | error e => simp
  | ok u =>
      simp only []
      intro h2
      cases h2
      rfl

end NewportESP301

/-- C6: axis/channel proxy collections.  For `NewportESP301.axis` (with
the controller in immediate mode, so the unit query reaches the device):
two accesses with the same non-negative index — even through two fresh
`_AxisList` objects from two property accesses — return behaviorally
identical handles (the same 1-based target id `idx + 1` and the same
cached unit), the handle is stored in the list's dict on first access, and
a repeated access on the same list returns that very handle; a negative
index always raises `IndexError`, on both the axis list and the Keithley
channel collection, and the channel handles carry their fixed 1-based id
and channel letter. -/
theorem C6_axis_channel_proxy_caching (dev : NewportESP301.ESPDevice)
    (now : String) (idx : Int) (st st' : NewportESP301.ESPState)
    (fresh fresh' : NewportESP301.Axis) (st2 st2' : NewportESP301.ESPState) :
    (0 ≤ idx →
     st.executeImmediately = true →
     st'.executeImmediately = true →
     NewportESP301.mkAxis dev now (idx.toNat + 1) st = (.ok fresh, st2) →
     NewportESP301.mkAxis dev now (idx.toNat + 1) st' = (.ok fresh', st2') →
       fresh = fresh' ∧
       fresh.axisId = idx.toNat + 1 ∧
       (∃ d2, NewportESP301.axisProperty dev now idx st = (.ok (fresh, d2), st2)) ∧
       (∀ d ax d2 stX,
         NewportESP301.axisListGetitem dev now d idx st = (.ok (ax, d2), stX) →
         d2 (idx.toNat + 1) = some ax ∧
         ∃ d3 stY, NewportESP301.axisListGetitem dev now d2 idx stX
             = (.ok (ax, d3), stY))) ∧
    (∀ j : Int, j < 0 → ∀ d st0,
       NewportESP301.axisListGetitem dev now d j st0 = (.error .indexError, st0)) ∧
    (∀ j : Int, j < 0 → Keithley775A.channelGetitem j = .error .indexError) ∧
    Keithley775A.channelGetitem 0 = .ok ⟨1, 'A'⟩ ∧
    Keithley775A.channelGetitem 1 = .ok ⟨2, 'B'⟩ := by
  refine ⟨?_, ?_, ?_, by decide, by decide⟩
  · intro hidx hst hst' hmk hmk'
    have hval := NewportESP301.mkAxis_value_indep dev now (idx.toNat + 1) st st' hst hst'
    rw [hmk, hmk'] at hval
    have hfe : fresh = fresh' := by
      simpa using hval
    refine ⟨hfe, NewportESP301.mkAxis_ok_axisId dev now _ st fresh st2 hmk, ?_, ?_⟩
    · refine ⟨fun k => if k = idx.toNat + 1 then some fresh else none, ?_⟩
      simp only [NewportESP301.axisProperty, NewportESP301.axisListGetitem,
        if_neg (by omega : ¬ idx < 0), hmk]
      simp
    · intro d ax d2 stX hget
      simp only [NewportESP301.axisListGetitem,
        if_neg (by omega : ¬ idx < 0), hmk] at hget
      have hax : ax = (d (idx.toNat + 1)).getD fresh := by
        have := congrArg (fun p => p.1) hget
        simp at this
        exact this.1.symm
      have hd2 : d2 = fun k =>
          if k = idx.toNat + 1 then some ((d (idx.toNat + 1)).getD fresh)
          else d k := by
        have := congrArg (fun p => p.1) hget
        simp at this
        exact this.2.symm
      have hstX : stX = st2 := by
        have := congrArg (fun p => p.2) hget
        simpa using this.symm
      have hst2 : st2.executeImmediately = true := by
        have h3 := NewportESP301.mkAxis_state_immediate dev now (idx.toNat + 1) st hst
        rw [hmk] at h3
        exact h3.1
      have hv2 := NewportESP301.mkAxis_value_indep dev now (idx.toNat + 1) st2 st hst2 hst
      rw [hmk] at hv2
      constructor
      · rw [hd2, hax]
        simp
      · rcases hmk2 : NewportESP301.mkAxis dev now (idx.toNat + 1) st2 with ⟨v2, stY⟩
        rw [hmk2] at hv2
        simp at hv2
        subst hv2
        refine ⟨fun k => if k = idx.toNat + 1 then some ax else d2 k, stY, ?_⟩
        rw [hstX]
        simp only [NewportESP301.axisListGetitem,
          if_neg (by omega : ¬ idx < 0), hmk2]
        rw [hd2, hax]
        simp
  · intro j hj d st0
    simp [NewportESP301.axisListGetitem, hj]
  · intro j hj
    simp [Keithley775A.channelGetitem, hj]

/-- A device whose axis 1 reports unit code 2 (millimetres) on `SN?` and
no error on `TB?`. -/
def NewportESP301.devUnits : NewportESP301.ESPDevice :=
  ⟨fun q =>
    if q = "1SN?" then "2"
    else if q = "TB?" then "0,0,NO ERROR DETECTED" else ""⟩

/-- Witness for C6: on a concrete device the fresh-collection access at
index 0 yields the handle with target id 1 and cached unit mm, and a
negative channel index raises. -/
theorem C6_axis_channel_proxy_caching_witness :
    (∃ d2, NewportESP301.axisProperty NewportESP301.devUnits "T" 0
        ⟨true, [], []⟩
        = (.ok (⟨1, .mm⟩, d2), ⟨true, [], ["1SN?", "TB?"]⟩)) ∧
    Keithley775A.channelGetitem (-1) = .error .indexError := by
  have h := C6_axis_channel_proxy_caching NewportESP301.devUnits "T" 0
      ⟨true, [], []⟩ ⟨true, [], []⟩ ⟨1, .mm⟩ ⟨1, .mm⟩
      ⟨true, [], ["1SN?", "TB?"]⟩ ⟨true, [], ["1SN?", "TB?"]⟩
  exact ⟨(h.1 (by decide) (by decide) (by decide) (by decide) (by decide)).2.2.1,
         h.2.2.1 (-1) (by decide)⟩

namespace NewportESP301

/-- The names bound at module level of `newportesp301.py` (its `import`s
and top-level definitions) — the globals visible inside
`wait_for_motion`. -/
def moduleGlobals : List String :=
  ["division", "time", "sleep", "datetime", "IntEnum", "contextmanager",
   "pq", "Instrument", "assume_units", "NewportESP301HomeSearchMode",
   "NewportESP301Units", "NewportError", "_AxisList", "NewportESP301",
   "NewportESP301Axis"]

/-- Resolution of a plain-name load inside `wait_for_motion`
(lines 830-858): `position` is read but never assigned in the function, so
it compiles as a global load; a name neither among the module globals nor
a builtin raises `NameError`, and a module global (a module or class
object) would not be the quantity that `assume_units(...).rescale(...)`
needs. -/
def loadGlobalQuantity (nm : String) : Except PyExc Rat :=
  if moduleGlobals.contains nm then
    .error (.typeError ("global " ++ nm ++ " is not a quantity"))
  else .error (.nameError nm)

/-- The polling loop of `wait_for_motion` (lines 850-858): return when the
device reports motion done, sleep for the poll interval between checks,
raise `IOError` once the elapsed time is no longer under the deadline.
`motionDone k` is the device's answer to the k-th `MD?` check; `fuel`
bounds the `while True` structurally. -/
def waitForMotionLoop (motionDone : Nat → Bool) (pollInterval : Rat)
    (maxWait : Option Rat) : Nat → Nat → Rat → Except PyExc Unit
  | 0, _, _ => .error (.runtimeError "loop fuel exhausted")
  | fuel + 1, k, elapsed =>
      if motionDone k then .ok ()
      else
        match maxWait with
        | none =>
            waitForMotionLoop motionDone pollInterval none fuel (k + 1)
              (elapsed + pollInterval)
        | some mw =>
            if elapsed < mw then
              waitForMotionLoop motionDone pollInterval (some mw) fuel (k + 1)
                (elapsed + pollInterval)
            else .error (.ioError "Timed out waiting for motion to finish.")

/-- `NewportESP301Axis.wait_for_motion` (lines 830-858): before any status
check runs, lines 846-849 reassign both parameters from expressions on
`position` — a name that is neither a parameter nor a local nor a module
global — so the first statement raises `NameError` and the polling loop
below is dead code.  The parameters are kept to mirror the signature; the
source never reads them. -/
def waitForMotion (motionDone : Nat → Bool) (fuel : Nat)
    (_pollInterval : Option Rat) (_maxWait : Option Rat) : Except PyExc Unit :=
  match loadGlobalQuantity "position" with
  | .error e => .error e
  | .ok p1 =>
      match loadGlobalQuantity "position" with
      | .error e => .error e
      | .ok m1 => waitForMotionLoop motionDone p1 (some m1) fuel 0 0

end NewportESP301

/-- C9 (evidence): every call to `wait_for_motion` — whatever the poll
interval, deadline, motion status sequence, or number of polls allowed —
raises `NameError` for the undefined name `position` before a single
status check, because lines 846-849 reference `position` instead of the
`poll_interval` and `max_wait` parameters.  The claimed polling behavior
(return on motion done, sleep between checks, `IOError` on deadline) is
never reached. -/
theorem C9_wait_for_motion_raises_name_error (motionDone : Nat → Bool)
    (fuel : Nat) (pollInterval maxWait : Option Rat) :
    NewportESP301.waitForMotion motionDone fuel pollInterval maxWait
      = .error (.nameError "position") := by
  rfl
